import Mathlib

/-!
Verification of the render pipeline of `src/studio.py` (Termux FFmpeg Studio).

The Python source is shallowly embedded below:
* pure string manipulation (SRT parsing, ASS generation, hex-color
  conversion, path handling, ffmpeg command assembly) is translated into
  executable Lean functions over `String` / `List Char`;
* the effectful parts of `MediaProcessor.run` (the extraction subprocess,
  the probed duration, the file contents, the encoder subprocess) are
  modelled by passing the observable results of those effects as explicit
  oracle arguments, so that `runModel` is a pure function describing the
  control flow of `run`.

Machine text is modelled as Lean `String`/`List Char`; the Python float
`total_duration` is modelled as a rational number.
-/

/-! ## Character and list helpers mirroring Python string operations -/

/-- Decimal digit test on the ASCII code point, mirroring the regex class d. -/
def isDigitChar (c : Char) : Bool := 48 ≤ c.toNat && c.toNat ≤ 57

/-- Whitespace test mirroring the characters removed by Python str.strip(). -/
def isWSChar (c : Char) : Bool :=
  c.toNat = 32 || c.toNat = 9 || c.toNat = 10 || c.toNat = 13 || c.toNat = 11 || c.toNat = 12

/-- ASCII uppercasing of one character, mirroring Python str.upper() on the
ASCII inputs handled by the program. -/
def upChar (c : Char) : Char :=
  if 97 ≤ c.toNat && c.toNat ≤ 122 then Char.ofNat (c.toNat - 32) else c

/-- Python str.strip(): remove whitespace from both ends. -/
def pyStrip (l : List Char) : List Char :=
  ((l.dropWhile isWSChar).reverse.dropWhile isWSChar).reverse

/-- Does the second list start with the first one? -/
def startsSeg : List Char → List Char → Bool
  | [], _ => true
  | _ :: _, [] => false
  | p :: ps, c :: cs => p == c && startsSeg ps cs

/-- Substring containment on character lists, mirroring the Python
operator `in` on strings. -/
def hasSeg : List Char → List Char → Bool
  | p, [] => p.isEmpty
  | p, c :: cs => startsSeg p (c :: cs) || hasSeg p cs

/-- Split a character list at newline characters, accumulator-based. -/
def splitNlAux : List Char → List Char → List String
  | [], acc => [String.mk acc.reverse]
  | c :: r, acc =>
    if c == '\n' then String.mk acc.reverse :: splitNlAux r []
    else splitNlAux r (c :: acc)

/-- Split a string into its lines, mirroring how the SRT regex walks the
file content line by line. -/
def splitLines (s : String) : List String := splitNlAux s.data []

/-- Python str.join with a separator. -/
def joinSep (sep : String) : List String → String
  | [] => ""
  | [x] => x
  | x :: xs => x ++ sep ++ joinSep sep xs

/-- Python text.replace of a newline with a backslash-N pair
(the ASS line-break token), from `AssGenerator.create`. -/
def nlToN : List Char → List Char
  | [] => []
  | c :: r => if c == '\n' then '\\' :: 'N' :: nlToN r else c :: nlToN r

/-- One pass of the tag-removing substitution `re.sub` with the pattern
"angle bracket, one or more non-closing characters, closing angle bracket"
used on cue text. Fuel-structured so the kernel can evaluate it; the fuel
is the length of the input. -/
def stripTagsF : Nat → List Char → List Char
  | 0, l => l
  | _, [] => []
  | fuel+1, c :: rest =>
    if c == '<' then
      match rest.dropWhile (fun x => x != '>') with
      | '>' :: tail =>
        if (rest.takeWhile (fun x => x != '>')).isEmpty then c :: stripTagsF fuel rest
        else stripTagsF fuel tail
      | _ => c :: stripTagsF fuel rest
    else c :: stripTagsF fuel rest

/-- Tag removal at full fuel. -/
def stripTags (l : List Char) : List Char := stripTagsF l.length l

/-- Final path component, mirroring Python pathlib name. -/
def baseNameChars (l : List Char) : List Char :=
  (l.reverse.takeWhile (fun c => c != '/')).reverse

/-- Name minus its last dot-suffix, mirroring Python pathlib stem on the
file names the program handles (a leading dot is not a suffix separator). -/
def stemChars (l : List Char) : List Char :=
  match l.reverse.dropWhile (fun c => c != '.') with
  | _ :: restRev => if restRev.isEmpty then l else restRev.reverse
  | [] => l

/-- Python pathlib stem of a path string. -/
def pathStem (s : String) : String := String.mk (stemChars (baseNameChars s.data))

/-- Python pathlib parent of a path string. -/
def parentDir (s : String) : String :=
  match s.data.reverse.dropWhile (fun c => c != '/') with
  | _ :: restRev => String.mk restRev.reverse
  | [] => "."

/-- The single-quote character, kept out of string literals. -/
def qc : Char := Char.ofNat 39

/-- The single-quote character as a string. -/
def sqt : String := String.mk [qc]

/-! ## Data model: `JobConfig` (src/studio.py lines 83-100) -/

/-- The job description dataclass `JobConfig`. Paths are modelled as
strings; `font_size` and the internal track index as naturals. Field
defaults follow the dataclass defaults. -/
structure JobConfig where
  videoPath : String
  mode : String
  subtitlePath : Option String := none
  internalSubIndex : Option Nat := none
  fontPath : Option String := none
  fontSize : Nat := 48
  colorHex : String := "FFFF00"
  useOpaqueBox : Bool := false
  watermarkPath : Option String := none
  watermarkPos : String := "Bottom-Right"
  resolution : String := "Original"
  isPreview : Bool := false
deriving DecidableEq, Repr

/-! ## Subtitle engine: `AssGenerator` (src/studio.py lines 103-182) -/

namespace AssGenerator

/-- Normalisation applied by `_hex_to_ass` before any test: uppercase,
remove every hash character, strip whitespace. -/
def normColor (s : String) : List Char :=
  pyStrip ((s.data.map upChar).filter (fun c => c != '#'))

/-- `AssGenerator._hex_to_ass` (lines 106-118): preset substring tests
first, then the length test, then the red-green-blue to blue-green-red
reordering. -/
def hex_to_ass (hexColor : String) : String :=
  let h := normColor hexColor
  if hasSeg "YELLOW".data h then "&H0000FFFF"
  else if hasSeg "WHITE".data h then "&H00FFFFFF"
  else if hasSeg "RED".data h then "&H000000FF"
  else if h.length ≠ 6 then "&H0000FFFF"
  else String.mk ("&H00".data ++ (h.drop 4).take 2 ++ (h.drop 2).take 2 ++ h.take 2)

/-- `AssGenerator._get_font_name` (lines 120-128). Reading the embedded
display name out of the font file is an external effect; its observable
result (the name, or nothing when unreadable) is the second argument. -/
def get_font_name (fontPath : Option String) (embeddedName : Option String) : String :=
  match fontPath with
  | none => "Arial"
  | some p =>
    match embeddedName with
    | some n => n
    | none => pathStem p

/-- Shape test for one SRT timestamp: two digits, colon, two digits,
colon, two digits, comma, three digits — the regex group of `create`. -/
def checkTime : List Char → Bool
  | [d1, d2, c1, d3, d4, c2, d5, d6, c3, d7, d8, d9] =>
    isDigitChar d1 && isDigitChar d2 && c1 == ':' &&
    isDigitChar d3 && isDigitChar d4 && c2 == ':' &&
    isDigitChar d5 && isDigitChar d6 && c3 == ',' &&
    isDigitChar d7 && isDigitChar d8 && isDigitChar d9
  | _ => false

/-- A timestamp string that matched the SRT regex shape. -/
abbrev SrtTimeStr := { l : List Char // checkTime l = true }

/-- One parsed SRT cue: the two matched timestamps and the processed text. -/
structure SrtCue where
  startT : SrtTimeStr
  endT : SrtTimeStr
  text : String
deriving DecidableEq

/-- An SRT index line: nonempty and all digits. -/
def isIndexLine (s : String) : Bool := !s.data.isEmpty && s.data.all isDigitChar

/-- Parse a timestamp pair line "start --> end" exactly as the regex
requires: 12 timestamp characters, the arrow with single spaces, 12
timestamp characters, nothing else. -/
def parseArrowLine (s : String) : Option (SrtTimeStr × SrtTimeStr) :=
  let l := s.data
  let a := l.take 12
  let b := l.drop 17
  if h : checkTime a = true ∧ checkTime b = true then
    if l.length = 29 ∧ (l.drop 12).take 5 = " --> ".data then
      some (⟨a, h.1⟩, ⟨b, h.2⟩)
    else none
  else none

/-- Cue text processing from `create` line 176: join the block lines,
strip whitespace, remove markup tags, turn newlines into the ASS
line-break token. -/
def mkCueText (textLines : List String) : String :=
  String.mk (nlToN (stripTags (pyStrip (joinSep "\n" textLines).data)))

/-- Block scanner equivalent to `regex.finditer` over a well-formed SRT
content: an index line, a timestamp line, then one or more nonempty text
lines. Fuel-structured (fuel = number of lines) so the kernel can
evaluate it. -/
def parseBlocksF : Nat → List String → List SrtCue
  | 0, _ => []
  | _, [] => []
  | _, [_] => []
  | fuel+1, l1 :: l2 :: rest =>
    match (if isIndexLine l1 then parseArrowLine l2 else none) with
    | some (s, e) =>
      let textLines := rest.takeWhile (fun x => !x.isEmpty)
      let rest2 := rest.dropWhile (fun x => !x.isEmpty)
      if textLines.isEmpty then parseBlocksF fuel (l2 :: rest)
      else ⟨s, e, mkCueText textLines⟩ :: parseBlocksF fuel rest2
    | none => parseBlocksF fuel (l2 :: rest)

/-- All cues matched in an SRT content string. -/
def parseSrt (content : String) : List SrtCue :=
  parseBlocksF (splitLines content).length (splitLines content)

/-- Timestamp conversion from `create` lines 174-175: replace the comma
with a period, then drop the final character. -/
def convTs (l : List Char) : List Char :=
  (l.map (fun c => if c == ',' then '.' else c)).dropLast

/-- One emitted event line (line 177 of the source). -/
def dialogueLine (cue : SrtCue) : String :=
  "Dialogue: 0," ++ String.mk (convTs cue.startT.val) ++ "," ++
    String.mk (convTs cue.endT.val) ++ ",Default,,0,0,0,," ++ cue.text

/-- The style line of the generated header (line 156 of the source). -/
def styleLine (cfg : JobConfig) (embeddedFontName : Option String) : String :=
  let fontName := get_font_name cfg.fontPath embeddedFontName
  let primary := hex_to_ass cfg.colorHex
  let borderStyle := if cfg.useOpaqueBox then "3" else "1"
  let shadow := if cfg.useOpaqueBox then "0" else "1"
  "Style: Default," ++ fontName ++ "," ++ toString cfg.fontSize ++ "," ++ primary ++
    ",&H000000FF,&H00000000,&H00000000,0,0,0,0,100,100,0,0," ++ borderStyle ++
    ",2," ++ shadow ++ ",2,10,10,25,1"

/-- The dedented and stripped header template of `create` (lines 148-160),
as the list of lines written before the events. -/
def headerLines (cfg : JobConfig) (embeddedFontName : Option String) : List String :=
  ["[Script Info]",
   "ScriptType: v4.00+",
   "PlayResX: 1280",
   "PlayResY: 720",
   "",
   "[V4+ Styles]",
   "Format: Name, Fontname, Fontsize, PrimaryColour, SecondaryColour, OutlineColour, BackColour, Bold, Italic, Underline, StrikeOut, ScaleX, ScaleY, Spacing, Angle, BorderStyle, Outline, Shadow, Alignment, MarginL, MarginR, MarginV, Encoding",
   styleLine cfg embeddedFontName,
   "",
   "[Events]",
   "Format: Layer, Start, End, Style, Name, MarginL, MarginR, MarginV, Effect, Text"]

/-- `AssGenerator.create` (lines 130-182) as the list of lines of the
generated script: fails (raises) exactly when the stripped content is
empty, otherwise header lines followed by one event line per matched cue. -/
def createLines (cfg : JobConfig) (embeddedFontName : Option String)
    (content : String) : Option (List String) :=
  if (pyStrip content.data).isEmpty then none
  else some (headerLines cfg embeddedFontName ++ (parseSrt content).map dialogueLine)

end AssGenerator

/-! ## FFmpeg worker: `MediaProcessor` (src/studio.py lines 185-343)

The five role directories of the configuration block (lines 47-55) live
under a per-user base path; `HOME` below stands for the user home
directory, whose concrete value is irrelevant to every claim. -/

/-- The base path of the configuration block (line 48). -/
def basePath : String := "HOME/storage/shared/FFmpegBot"

/-- The output directory (line 52). -/
def outputDir : String := basePath ++ "/Output"

/-- The fonts directory (line 53). -/
def fontsDirPath : String := basePath ++ "/Fonts"

namespace MediaProcessor

/-- The output file name chosen in `__init__` (lines 188-189). -/
def outputFileName (cfg : JobConfig) : String :=
  (if cfg.isPreview then "PREVIEW_" else "FINAL_") ++ pathStem cfg.videoPath ++ ".mp4"

/-- The full output path `self.output_file`. -/
def output_file (cfg : JobConfig) : String := outputDir ++ "/" ++ outputFileName cfg

/-- Replace backslashes with forward slashes (first step of `_escape_path`). -/
def escSlash (l : List Char) : List Char :=
  l.map (fun c => if c == '\\' then '/' else c)

/-- Escape colons with a backslash (second step of `_escape_path`). -/
def escColon : List Char → List Char
  | [] => []
  | c :: r => if c == ':' then '\\' :: ':' :: escColon r else c :: escColon r

/-- Escape single quotes as quote-backslash-quote-quote
(third step of `_escape_path`). -/
def escQuote : List Char → List Char
  | [] => []
  | c :: r => if c == qc then qc :: '\\' :: qc :: qc :: escQuote r else c :: escQuote r

/-- `MediaProcessor._escape_path` (lines 192-194). -/
def escape_path (p : String) : String := String.mk (escQuote (escColon (escSlash p.data)))

/-- The fixed temporary path used by `_extract_internal_sub` (line 197). -/
def tempExtractPath : String := outputDir ++ "/temp_extract.srt"

/-- `MediaProcessor._extract_internal_sub` (lines 196-210). The extraction
subprocess is an external effect; its observable post-state — whether the
fixed temporary file exists, its size, and the subprocess exit status —
is passed in. The source waits on the subprocess but never looks at its
exit status: the result depends only on the file state. -/
def extract_internal_sub (fileExists : Bool) (fileSize : Nat) (_exitCode : Nat) :
    Option String :=
  if fileExists = true ∧ 0 < fileSize then some tempExtractPath else none

/-- The total duration used as the progress denominator (line 291):
15 for previews, the probed duration otherwise. Floats are modelled as
rationals. -/
def totalDuration (cfg : JobConfig) (probedDuration : ℚ) : ℚ :=
  if cfg.isPreview then 15 else probedDuration

/-- The progress percentage computed from one progress line
(lines 325-327): elapsed microseconds over the total duration. -/
def progressPercent (outTimeUs : Nat) (total : ℚ) : ℚ :=
  ((outTimeUs : ℚ) / 1000000) / total * 100

/-- The watermark position lookup with its default (lines 266-273). -/
def posMap (pos : String) : String :=
  if pos = "Top-Left" then "20:20"
  else if pos = "Top-Right" then "main_w-overlay_w-20:20"
  else if pos = "Bottom-Left" then "20:main_h-overlay_h-20"
  else if pos = "Bottom-Right" then "main_w-overlay_w-20:main_h-overlay_h-20"
  else if pos = "Center" then "(main_w-overlay_w)/2:(main_h-overlay_h)/2"
  else "20:20"

/-- The subtitle burn-in stage (line 252). -/
def subFilter (cfg : JobConfig) (assFile : String) : String :=
  let fontsDir := match cfg.fontPath with
    | some fp => parentDir fp
    | none => fontsDirPath
  "[0:v]subtitles=" ++ sqt ++ escape_path assFile ++ sqt ++ ":fontsdir=" ++ sqt ++
    escape_path fontsDir ++ sqt ++ "[v_sub]"

/-- The filter chain construction of `run` (lines 245-275): subtitle
burn-in, then scale, then watermark overlay, threading the current video
label. Returns the filter list and the final label. -/
def filterChain (cfg : JobConfig) (assFile : Option String) : List String × String :=
  let s1 : List String × String :=
    match assFile with
    | some af => ([subFilter cfg af], "[v_sub]")
    | none => ([], "[0:v]")
  let s2 : List String × String :=
    if cfg.resolution ≠ "Original" then
      let h := if cfg.resolution = "720p" then "720" else "480"
      (s1.1 ++ [s1.2 ++ "scale=-2:" ++ h ++ "[v_scale]"], "[v_scale]")
    else s1
  match cfg.watermarkPath with
  | some _ =>
    (s2.1 ++ [s2.2 ++ "[1:v]overlay=" ++ posMap cfg.watermarkPos ++ "[v_fin]"], "[v_fin]")
  | none => s2

/-- The leading arguments of the command (lines 240-243): binary,
overwrite flag, source input, and the preview seek-and-limit clamp. -/
def inputArgs (cfg : JobConfig) : List String :=
  ["ffmpeg", "-y", "-i", cfg.videoPath] ++
    (if cfg.isPreview then ["-ss", "00:00:30", "-t", "15"] else [])

/-- The watermark input argument added while building stage C (line 263). -/
def wmInput (cfg : JobConfig) : List String :=
  match cfg.watermarkPath with
  | some wm => ["-i", wm]
  | none => []

/-- The filter/mapping arguments (lines 277-280). -/
def mapArgs (cfg : JobConfig) (assFile : Option String) : List String :=
  let fc := filterChain cfg assFile
  if fc.1.isEmpty then ["-map", "0:v"]
  else ["-filter_complex", joinSep ";" fc.1, "-map", fc.2]

/-- The audio arguments (line 283): map any audio and stream-copy it. -/
def audioArgs : List String := ["-map", "0:a?", "-c:a", "copy"]

/-- The video/codec/progress/output tail (lines 284-285). -/
def encodeArgs (cfg : JobConfig) : List String :=
  ["-c:v", "libx264", "-preset", "veryfast", "-crf", "23", "-sn",
   "-progress", "pipe:1", output_file cfg]

/-- The full encoder command built by `run` (lines 239-285). -/
def build_cmd (cfg : JobConfig) (assFile : Option String) : List String :=
  inputArgs cfg ++ wmInput cfg ++ mapArgs cfg assFile ++ audioArgs ++ encodeArgs cfg

/-- One step of the diagnostic tail log (lines 320-321): append, then
evict the oldest line when over 20. -/
def pushLog (logs : List String) (l : String) : List String :=
  let logs2 := logs ++ [l]
  if 20 < logs2.length then logs2.drop 1 else logs2

/-- The tail log retained after the subprocess emitted the given lines. -/
def runLogs (lines : List String) : List String := lines.foldl pushLog []

/-- The temporary script path chosen by `AssGenerator.create` (line 132),
timestamped with the current epoch second. -/
def assPath (tstamp : Nat) : String := outputDir ++ "/temp_" ++ toString tstamp ++ ".ass"

/-- The observable outcome of one `MediaProcessor.run` call. -/
structure RunOutcome where
  /-- run returned before reaching the encoder invocation -/
  aborted : Bool
  /-- the encoder subprocess was spawned -/
  spawned : Bool
  /-- the encoder command, when one was built -/
  cmd : Option (List String)
  /-- the cleanup loop (lines 334-335) was executed -/
  cleanupRan : Bool
  /-- the files registered in `self.cleanup_files` at exit -/
  cleanupFiles : List String
  /-- the encoder exited with status zero -/
  success : Bool
  /-- the output name reported in the success panel, when reported -/
  reportedOutput : Option String
  /-- the retained diagnostic tail -/
  errorLog : List String
deriving DecidableEq, Repr

/-- The outcome of the execution phase of `run` (lines 287-343), reached
once subtitles are prepared. -/
def finish (cfg : JobConfig) (assFile : Option String) (cleanup : List String)
    (emitted : List String) (exitCode : Nat) : RunOutcome :=
  { aborted := false
    spawned := true
    cmd := some (build_cmd cfg assFile)
    cleanupRan := true
    cleanupFiles := cleanup
    success := exitCode = 0
    reportedOutput := if exitCode = 0 then some (outputFileName cfg) else none
    errorLog := runLogs emitted }

/-- An early return of `run` (line 231 or line 237): nothing spawned, no
command built, the cleanup loop never executed. -/
def earlyReturn (cleanup : List String) : RunOutcome :=
  { aborted := true
    spawned := false
    cmd := none
    cleanupRan := false
    cleanupFiles := cleanup
    success := false
    reportedOutput := none
    errorLog := [] }

/-- The subtitle source resolved by the preparation phase of `run`
(lines 225-231): the extraction result for Internal-Hardsub jobs, the
configured subtitle path otherwise. The post-state of the extraction
subprocess (file existence, file size, exit status) is passed in. -/
def srtSource (cfg : JobConfig) (extractExists : Bool) (extractSize extractExit : Nat) :
    Option String :=
  if cfg.mode = "hardsub_internal" then
    extract_internal_sub extractExists extractSize extractExit
  else cfg.subtitlePath

/-- The files registered in `self.cleanup_files` by the subtitle
preparation phase before script generation: the extracted temporary file,
when internal extraction succeeded (line 208). -/
def cleanup0 (cfg : JobConfig) (extractExists : Bool) (extractSize extractExit : Nat) :
    List String :=
  if cfg.mode = "hardsub_internal" ∧ (srtSource cfg extractExists extractSize extractExit).isSome
  then [tempExtractPath] else []

/-- `MediaProcessor.run` (lines 220-343) as a pure function of the job
and the observable results of its external effects (see `srtSource` and
the oracle arguments). -/
def runModel (cfg : JobConfig) (extractExists : Bool) (extractSize : Nat)
    (extractExit : Nat) (srtContent : String) (embeddedFontName : Option String)
    (tstamp : Nat) (emitted : List String) (exitCode : Nat) : RunOutcome :=
  if hasSeg "hardsub".data cfg.mode.data then
    if cfg.mode = "hardsub_internal" ∧
        (srtSource cfg extractExists extractSize extractExit).isNone then
      earlyReturn (cleanup0 cfg extractExists extractSize extractExit)
    else
      match srtSource cfg extractExists extractSize extractExit with
      | some _ =>
        match AssGenerator.createLines cfg embeddedFontName srtContent with
        | none => earlyReturn (cleanup0 cfg extractExists extractSize extractExit)
        | some _ =>
          finish cfg (some (assPath tstamp))
            (cleanup0 cfg extractExists extractSize extractExit ++ [assPath tstamp])
            emitted exitCode
      | none => finish cfg none (cleanup0 cfg extractExists extractSize extractExit)
          emitted exitCode
  else finish cfg none [] emitted exitCode

end MediaProcessor

/-! ## Analysis definitions

Numeric views of the SRT and ASS timestamp strings, and predicates taken
from the wording of the specification (used to state refuted claims). -/

/-- Numeric value of one digit character. -/
def digitVal (c : Char) : Nat := c.toNat - 48

/-- Millisecond value of a 12-character SRT timestamp. -/
def msVal : List Char → Nat
  | [a, b, _, m, n, _, p, q, _, x, y, z] =>
    ((digitVal a * 10 + digitVal b) * 3600 + (digitVal m * 10 + digitVal n) * 60 +
      (digitVal p * 10 + digitVal q)) * 1000 +
      digitVal x * 100 + digitVal y * 10 + digitVal z
  | _ => 0

/-- Centisecond value of an 11-character converted (ASS) timestamp. -/
def csVal : List Char → Nat
  | [a, b, _, m, n, _, p, q, _, x, y] =>
    ((digitVal a * 10 + digitVal b) * 3600 + (digitVal m * 10 + digitVal n) * 60 +
      (digitVal p * 10 + digitVal q)) * 100 +
      digitVal x * 10 + digitVal y
  | _ => 0

/-- Uppercase hexadecimal digit test. -/
def isHexUpperChar (c : Char) : Bool :=
  (48 ≤ c.toNat && c.toNat ≤ 57) || (65 ≤ c.toNat && c.toNat ≤ 70)

/-- Hexadecimal digit test in either case, from the words of the claim. -/
def specHexDigit (c : Char) : Bool :=
  isHexUpperChar c || (97 ≤ c.toNat && c.toNat ≤ 102)

/-- Modelled from the claim wording: the input is exactly 6 hex digits. -/
def specSixHexDigits (s : String) : Bool :=
  s.data.length = 6 && s.data.all specHexDigit

/-- Modelled from the claim wording: the input is one of the recognized
preset names yellow, white, red (in any letter case). -/
def specPresetName (s : String) : Bool :=
  (s.data.map upChar == "YELLOW".data) || (s.data.map upChar == "WHITE".data) ||
    (s.data.map upChar == "RED".data)

/-- The statement that one cue was emitted faithfully: the event line
carries the converted timestamps, each converted timestamp is the source
timestamp with the comma replaced by a period and exactly the final
millisecond digit dropped, and centisecond order follows millisecond
order. -/
def convSpec (t : AssGenerator.SrtTimeStr) : Prop :=
  ∃ a b m n p q x y z : Char,
    t.val = [a, b, ':', m, n, ':', p, q, ',', x, y, z] ∧
    AssGenerator.convTs t.val = [a, b, ':', m, n, ':', p, q, '.', x, y]

/-- Conjunction proved for every parsed cue (claim C5). -/
def convOk (cue : AssGenerator.SrtCue) : Prop :=
  AssGenerator.dialogueLine cue =
    "Dialogue: 0," ++ String.mk (AssGenerator.convTs cue.startT.val) ++ "," ++
      String.mk (AssGenerator.convTs cue.endT.val) ++ ",Default,,0,0,0,," ++ cue.text ∧
  convSpec cue.startT ∧ convSpec cue.endT ∧
  (msVal cue.startT.val ≤ msVal cue.endT.val →
    csVal (AssGenerator.convTs cue.startT.val) ≤ csVal (AssGenerator.convTs cue.endT.val))

/-! ## Concrete jobs used by the scenario claims -/

/-- The Hardsub-From-File scenario job of the specification. -/
def cfgC3 : JobConfig :=
  { videoPath := "movie.mkv", mode := "hardsub_srt", subtitlePath := some "a.srt" }

/-- The one-cue subtitle content of the scenario. -/
def srtC3 : String := "1\n00:00:01,000 --> 00:00:02,500\nHello\n"

/-- A Soft-Mux job: source plus an external subtitle file, no watermark. -/
def cfgSoft : JobConfig :=
  { videoPath := "movie.mkv", mode := "softsub", subtitlePath := some "a.srt" }

/-- A plain job used to exhibit the audio arguments of a built plan. -/
def cfgC2 : JobConfig := { videoPath := "clip.mp4", mode := "softsub" }

/-- The preview variant of the scenario job. -/
def cfgPrev : JobConfig := { videoPath := "movie.mkv", mode := "softsub", isPreview := true }

/-- An Internal-Hardsub job whose extraction succeeds but whose extracted
file holds only whitespace, so that script generation raises. -/
def cfgLeak : JobConfig :=
  { videoPath := "movie.mkv", mode := "hardsub_internal", internalSubIndex := some 2 }

/-- An Internal-Hardsub job used for the failed-extraction claim. -/
def cfgInt : JobConfig :=
  { videoPath := "movie.mkv", mode := "hardsub_internal", internalSubIndex := some 2 }

/-- The parsed cue of the scenario content. -/
def demoCue : AssGenerator.SrtCue :=
  { startT := ⟨"00:00:01,000".data, by decide⟩
    endT := ⟨"00:00:02,500".data, by decide⟩
    text := "Hello" }

/-- Twenty-five diagnostic lines, for the tail-log scenario. -/
def demoLines : List String := (List.range 25).map toString

-- scratch sanity checks (evaluation through the kernel)
example : AssGenerator.hex_to_ass "FFFF00" = "&H0000FFFF" := by decide
example : AssGenerator.hex_to_ass "FF0000" = "&H000000FF" := by decide
example : AssGenerator.hex_to_ass "ZZZZZZ" = "&H00ZZZZZZ" := by decide
example : pathStem "movie.mkv" = "movie" := by decide
example : toString (48 : Nat) = "48" := by decide
example : (AssGenerator.parseSrt "1\n00:00:01,000 --> 00:00:02,500\nHello\n").length = 1 := by decide
example :
    (AssGenerator.parseSrt "1\n00:00:01,000 --> 00:00:02,500\nHello\n").map
      AssGenerator.dialogueLine =
    ["Dialogue: 0,00:00:01.00,00:00:02.50,Default,,0,0,0,,Hello"] := by decide
example :
    MediaProcessor.build_cmd { videoPath := "movie.mkv", mode := "softsub" } none =
    ["ffmpeg", "-y", "-i", "movie.mkv", "-map", "0:v", "-map", "0:a?", "-c:a", "copy",
     "-c:v", "libx264", "-preset", "veryfast", "-crf", "23", "-sn",
     "-progress", "pipe:1", "HOME/storage/shared/FFmpegBot/Output/FINAL_movie.mp4"] := by decide
example :
    (MediaProcessor.runModel
      ({ videoPath := "movie.mkv", mode := "softsub", subtitlePath := some "a.srt" } : JobConfig)
      false 0 0 "x" none 7 ["l1", "l2"] 0).spawned = true := by
  decide
example :
    MediaProcessor.runLogs ((List.range 25).map toString) =
    ((List.range 25).map toString).drop 5 := by decide

/-! ## Claim C1 — the Soft-Mux plan and the external subtitle file -/

/-- C1: at a concrete Soft-Mux job (source movie.mkv, external subtitle
a.srt, no watermark), the run builds its command with no subtitle script,
the built command never mentions the subtitle file, contains no burn-in
subtitles filter, has exactly one input argument, disables subtitle
streams with the -sn flag, and maps no text-subtitle codec: the external
subtitle file is ignored entirely. -/
theorem softsub_plan_has_no_subtitle_input :
    (MediaProcessor.runModel cfgSoft false 0 0 srtC3 none 0 [] 0).cmd =
      some (MediaProcessor.build_cmd cfgSoft none) ∧
    "a.srt" ∉ MediaProcessor.build_cmd cfgSoft none ∧
    (∀ s ∈ MediaProcessor.build_cmd cfgSoft none, hasSeg "subtitles=".data s.data = false) ∧
    ((MediaProcessor.build_cmd cfgSoft none).filter (fun x => x == "-i")).length = 1 ∧
    "-sn" ∈ MediaProcessor.build_cmd cfgSoft none ∧
    "mov_text" ∉ MediaProcessor.build_cmd cfgSoft none ∧
    "-c:s" ∉ MediaProcessor.build_cmd cfgSoft none := by
  decide

/-! ## Claim C2 — audio handling of every plan -/

/-- C2 counterexample: in the plan built for a concrete job the audio
arguments are map all audio then stream-copy it, and no audio bitrate
or audio re-encode flag occurs: the claim that audio is re-encoded and
never stream-copied is false. -/
theorem audio_stream_copied_concrete :
    ((MediaProcessor.build_cmd cfgC2 none).drop 8).take 2 = ["-c:a", "copy"] ∧
    "-b:a" ∉ MediaProcessor.build_cmd cfgC2 none ∧
    "aac" ∉ MediaProcessor.build_cmd cfgC2 none ∧
    "128k" ∉ MediaProcessor.build_cmd cfgC2 none := by
  decide

/-- C2 amended: every plan built by the planner stream-copies the audio:
the argument block map 0:a? followed by -c:a copy occurs in every built
command. -/
theorem audio_always_stream_copied (cfg : JobConfig) (assFile : Option String) :
    ∃ pre post, MediaProcessor.build_cmd cfg assFile =
      pre ++ ["-map", "0:a?", "-c:a", "copy"] ++ post := by
  refine ⟨MediaProcessor.inputArgs cfg ++ MediaProcessor.wmInput cfg ++
    MediaProcessor.mapArgs cfg assFile, MediaProcessor.encodeArgs cfg, ?_⟩
  simp [MediaProcessor.build_cmd, MediaProcessor.audioArgs, List.append_assoc]

/-! ## Claim C3 — the Hardsub-From-File scenario -/

set_option maxRecDepth 40000 in
/-- C3 counterexample: the generated script of the scenario does not
contain the claimed event line (whose hour field has one digit); the
source writes the matched two-digit hours unchanged. -/
theorem c3_claimed_event_line_absent :
    "Dialogue: 0,0:00:01.00,0:00:02.50,Default,,0,0,0,,Hello" ∉
      (AssGenerator.createLines cfgC3 none srtC3).getD [] ∧
    hasSeg "Dialogue: 0,0:00:01.00,0:00:02.50,Default,,0,0,0,,Hello".data
      (joinSep "\n" ((AssGenerator.createLines cfgC3 none srtC3).getD [])).data = false := by
  decide

/-- C3 amended: the generated script of the scenario contains the style
line with size 48 and primary color &H0000FFFF, contains the event line
with two-digit hours, and the final output file is named FINAL_movie.mp4. -/
theorem c3_scenario_amended :
    "Style: Default,Arial,48,&H0000FFFF,&H000000FF,&H00000000,&H00000000,0,0,0,0,100,100,0,0,1,2,1,2,10,10,25,1"
      ∈ (AssGenerator.createLines cfgC3 none srtC3).getD [] ∧
    "Dialogue: 0,00:00:01.00,00:00:02.50,Default,,0,0,0,,Hello"
      ∈ (AssGenerator.createLines cfgC3 none srtC3).getD [] ∧
    MediaProcessor.outputFileName cfgC3 = "FINAL_movie.mp4" := by
  decide

/-! ## Claim C4 — the hex-color conversion -/

/-- C4 counterexample: the six-character input ZZZZZZ is not six hex
digits and is not a recognized preset name, yet it is byte-swapped
instead of falling back to the yellow preset. -/
theorem hex_fallback_counterexample :
    specSixHexDigits "ZZZZZZ" = false ∧
    specPresetName "ZZZZZZ" = false ∧
    AssGenerator.hex_to_ass "ZZZZZZ" ≠ "&H0000FFFF" := by
  decide

/-! ## Claim C9 — cleanup on every exit path -/

/-- C9 counterexample: an Internal-Hardsub run whose extraction succeeds
(the fixed temporary file exists with size 3) but whose extracted content
is whitespace-only returns from the script-generation error handler
before the cleanup loop: the cleanup never runs although the extracted
subtitle file was registered for deletion. -/
theorem cleanup_skipped_on_script_error :
    (MediaProcessor.runModel cfgLeak true 3 0 "   " none 5 [] 0).cleanupRan = false ∧
    (MediaProcessor.runModel cfgLeak true 3 0 "   " none 5 [] 0).cleanupFiles =
      [MediaProcessor.tempExtractPath] ∧
    (MediaProcessor.runModel cfgLeak true 3 0 "   " none 5 [] 0).aborted = true := by
  decide

/-! ## Claim C10 — internal-track extraction post-condition -/

/-- C10: internal-track extraction reports success exactly when the fixed
non-timestamped file Output/temp_extract.srt exists and is non-empty
after the subprocess finishes, and its result is independent of the
subprocess exit status — so a leftover non-empty file is reported as a
successful extraction. -/
theorem extract_internal_sub_spec (fileExists : Bool) (fileSize : Nat)
    (exitCode exitCode2 : Nat) :
    MediaProcessor.extract_internal_sub fileExists fileSize exitCode =
      (if fileExists = true ∧ 0 < fileSize
        then some (outputDir ++ "/temp_extract.srt") else none) ∧
    MediaProcessor.extract_internal_sub fileExists fileSize exitCode =
      MediaProcessor.extract_internal_sub fileExists fileSize exitCode2 := by
  exact ⟨rfl, rfl⟩

/-! ## Helper lemmas on the run control flow and the tail log -/

/-- Every run outcome is either an early return or a completed execution. -/
theorem runModel_shape (cfg : JobConfig) (ex : Bool) (sz ec : Nat) (content : String)
    (emb : Option String) (t : Nat) (emitted : List String) (code : Nat) :
    (∃ cleanup, MediaProcessor.runModel cfg ex sz ec content emb t emitted code =
      MediaProcessor.earlyReturn cleanup) ∨
    (∃ af cleanup, MediaProcessor.runModel cfg ex sz ec content emb t emitted code =
      MediaProcessor.finish cfg af cleanup emitted code) := by
  unfold MediaProcessor.runModel
  repeat' split
  all_goals first
    | exact Or.inl ⟨_, rfl⟩
    | exact Or.inr ⟨_, _, rfl⟩

/-- The pushed log equals the suffix of the appended list (one step). -/
theorem pushLog_eq (acc : List String) (l : String) (h : acc.length ≤ 20) :
    MediaProcessor.pushLog acc l = (acc ++ [l]).drop (acc.length + 1 - 20) := by
  unfold MediaProcessor.pushLog
  by_cases hlen : 20 < (acc ++ [l]).length
  · have h20 : acc.length = 20 := by simp at hlen; omega
    simp [hlen, h20]
  · have h0 : acc.length + 1 - 20 = 0 := by simp at hlen; omega
    rw [if_neg hlen, h0, List.drop_zero]

/-- The fold that maintains the tail log keeps exactly the last 20
entries: with an accumulator of at most 20 lines, folding the remaining
lines yields the suffix of the concatenation that starts 20 entries from
its end. -/
theorem foldl_pushLog (ls : List String) :
    ∀ acc : List String, acc.length ≤ 20 →
      List.foldl MediaProcessor.pushLog acc ls =
        (acc ++ ls).drop (acc.length + ls.length - 20) := by
  induction ls with
  | nil =>
    intro acc h
    have h0 : acc.length - 20 = 0 := by omega
    simp [h0]
  | cons l ls ih =>
    intro acc h
    have hpush := pushLog_eq acc l h
    have hpushlen : (MediaProcessor.pushLog acc l).length ≤ 20 := by
      rw [hpush]
      simp only [List.length_drop, List.length_append, List.length_cons, List.length_nil]
      omega
    have hk : acc.length + 1 - 20 ≤ (acc ++ [l]).length := by
      simp only [List.length_append, List.length_cons, List.length_nil]
      omega
    have hx : (acc ++ [l]).drop (acc.length + 1 - 20) ++ ls =
        (acc ++ l :: ls).drop (acc.length + 1 - 20) := by
      rw [← List.drop_append_of_le_length hk, List.append_assoc, List.singleton_append]
    calc List.foldl MediaProcessor.pushLog acc (l :: ls)
        = List.foldl MediaProcessor.pushLog (MediaProcessor.pushLog acc l) ls := rfl
      _ = (MediaProcessor.pushLog acc l ++ ls).drop
            ((MediaProcessor.pushLog acc l).length + ls.length - 20) := ih _ hpushlen
      _ = (acc ++ l :: ls).drop (acc.length + (l :: ls).length - 20) := by
            rw [hpush, hx, List.drop_drop]
            simp only [List.length_drop, List.length_append, List.length_cons, List.length_nil]
            congr 1
            omega

/-- The retained tail log is the 20-entry suffix of the emitted lines. -/
theorem runLogs_eq (lines : List String) :
    MediaProcessor.runLogs lines = lines.drop (lines.length - 20) := by
  unfold MediaProcessor.runLogs
  simpa using foldl_pushLog lines [] (by simp)

/-! ## Claim C6 — preview jobs -/

/-- C6: for every job with the preview flag enabled, the total duration
used as the progress denominator is exactly 15 regardless of the probed
source duration, the built command starts with the inputs immediately
followed by the 30-second seek and 15-second limit (so both come before
every filter and mapping argument), and the output name carries the
PREVIEW naming prefix. -/
theorem preview_plan (cfg : JobConfig) (assFile : Option String) (probed : ℚ)
    (h : cfg.isPreview = true) :
    MediaProcessor.totalDuration cfg probed = 15 ∧
    (∃ rest, MediaProcessor.build_cmd cfg assFile =
      ["ffmpeg", "-y", "-i", cfg.videoPath, "-ss", "00:00:30", "-t", "15"] ++ rest) ∧
    MediaProcessor.outputFileName cfg = "PREVIEW_" ++ pathStem cfg.videoPath ++ ".mp4" := by
  refine ⟨?_, ⟨MediaProcessor.wmInput cfg ++ MediaProcessor.mapArgs cfg assFile ++
    MediaProcessor.audioArgs ++ MediaProcessor.encodeArgs cfg, ?_⟩, ?_⟩
  · simp [MediaProcessor.totalDuration, h]
  · simp [MediaProcessor.build_cmd, MediaProcessor.inputArgs, h, List.append_assoc]
  · simp [MediaProcessor.outputFileName, h]

/-- C6 witness: the preview job of the scenario, with probed duration
999, satisfies the preview-plan properties. -/
theorem preview_plan_witness :
    cfgPrev.isPreview = true ∧
    (MediaProcessor.totalDuration cfgPrev 999 = 15 ∧
     (∃ rest, MediaProcessor.build_cmd cfgPrev none =
       ["ffmpeg", "-y", "-i", cfgPrev.videoPath, "-ss", "00:00:30", "-t", "15"] ++ rest) ∧
     MediaProcessor.outputFileName cfgPrev = "PREVIEW_" ++ pathStem cfgPrev.videoPath ++ ".mp4") :=
  ⟨rfl, preview_plan cfgPrev none 999 rfl⟩

/-! ## Claim C7 — the bounded diagnostic tail -/

/-- C7: the retained tail log is always the at-most-20-entry suffix of
the emitted lines in their original order (so the oldest line is evicted
first and the log never exceeds 20 lines); and on every run that reaches
the encoder and sees it exit non-zero after at least 20 lines, the
reported tail log is exactly the last 20 lines and no output file is
reported. -/
theorem tail_log_bounded :
    (∀ lines : List String,
      MediaProcessor.runLogs lines = lines.drop (lines.length - 20) ∧
      (MediaProcessor.runLogs lines).length ≤ 20) ∧
    (∀ (cfg : JobConfig) (ex : Bool) (sz ec : Nat) (content : String)
        (emb : Option String) (t : Nat) (emitted : List String) (code : Nat),
      (MediaProcessor.runModel cfg ex sz ec content emb t emitted code).spawned = true →
      code ≠ 0 → 20 ≤ emitted.length →
      (MediaProcessor.runModel cfg ex sz ec content emb t emitted code).errorLog =
        emitted.drop (emitted.length - 20) ∧
      (MediaProcessor.runModel cfg ex sz ec content emb t emitted code).errorLog.length = 20 ∧
      (MediaProcessor.runModel cfg ex sz ec content emb t emitted code).reportedOutput =
        none) := by
  constructor
  · intro lines
    refine ⟨runLogs_eq lines, ?_⟩
    rw [runLogs_eq lines]
    simp only [List.length_drop]
    omega
  · intro cfg ex sz ec content emb t emitted code hsp hcode hlen
    rcases runModel_shape cfg ex sz ec content emb t emitted code with ⟨c, hc⟩ | ⟨af, c, hc⟩
    · rw [hc] at hsp
      simp [MediaProcessor.earlyReturn] at hsp
    · rw [hc]
      refine ⟨?_, ?_, ?_⟩
      · simpa [MediaProcessor.finish] using runLogs_eq emitted
      · simp only [MediaProcessor.finish]
        rw [runLogs_eq emitted]
        simp only [List.length_drop]
        omega
      · simp [MediaProcessor.finish, hcode]

/-- C7 witness: twenty-five emitted lines and exit status 1 leave exactly
the last 20 lines, in order. -/
theorem tail_log_bounded_witness :
    (MediaProcessor.runLogs demoLines = demoLines.drop (demoLines.length - 20) ∧
     (MediaProcessor.runLogs demoLines).length ≤ 20) ∧
    ((MediaProcessor.runModel cfgSoft false 0 0 srtC3 none 0 demoLines 1).spawned = true ∧
     (1 : Nat) ≠ 0 ∧ 20 ≤ demoLines.length) ∧
    ((MediaProcessor.runModel cfgSoft false 0 0 srtC3 none 0 demoLines 1).errorLog =
       demoLines.drop (demoLines.length - 20) ∧
     (MediaProcessor.runModel cfgSoft false 0 0 srtC3 none 0 demoLines 1).errorLog.length = 20 ∧
     (MediaProcessor.runModel cfgSoft false 0 0 srtC3 none 0 demoLines 1).reportedOutput =
       none) :=
  ⟨tail_log_bounded.1 demoLines,
   ⟨by decide, by decide, by decide⟩,
   tail_log_bounded.2 cfgSoft false 0 0 srtC3 none 0 demoLines 1
     (by decide) (by decide) (by decide)⟩

/-! ## Claim C8 — failed internal extraction aborts the run -/

/-- C8: every Internal-Hardsub run whose extraction leaves no file or an
empty file returns before any encoder command is built: the outcome is an
early return with no command, no spawned subprocess, and no reported
output file. -/
theorem internal_extraction_aborts (cfg : JobConfig) (ex : Bool) (sz ec : Nat)
    (content : String) (emb : Option String) (t : Nat) (emitted : List String)
    (code : Nat) (hmode : cfg.mode = "hardsub_internal")
    (hfail : ex = false ∨ sz = 0) :
    (MediaProcessor.runModel cfg ex sz ec content emb t emitted code).aborted = true ∧
    (MediaProcessor.runModel cfg ex sz ec content emb t emitted code).spawned = false ∧
    (MediaProcessor.runModel cfg ex sz ec content emb t emitted code).cmd = none ∧
    (MediaProcessor.runModel cfg ex sz ec content emb t emitted code).reportedOutput = none ∧
    (MediaProcessor.runModel cfg ex sz ec content emb t emitted code).cleanupFiles = [] := by
  have hex : MediaProcessor.extract_internal_sub ex sz ec = none := by
    unfold MediaProcessor.extract_internal_sub
    rcases hfail with h | h <;> simp [h]
  have hsrc : MediaProcessor.srtSource cfg ex sz ec = none := by
    unfold MediaProcessor.srtSource
    rw [hmode, if_pos rfl, hex]
  have hseg : hasSeg "hardsub".data ("hardsub_internal" : String).data = true := by decide
  have hcl : MediaProcessor.cleanup0 cfg ex sz ec = [] := by
    unfold MediaProcessor.cleanup0
    rw [hsrc]
    simp
  unfold MediaProcessor.runModel
  rw [hmode, hseg, hsrc, hcl]
  simp [MediaProcessor.earlyReturn]

/-- C8 witness: an Internal-Hardsub job whose extraction left no file
aborts with no command and no output. -/
theorem internal_extraction_aborts_witness :
    cfgInt.mode = "hardsub_internal" ∧ (false = false ∨ (0 : Nat) = 0) ∧
    ((MediaProcessor.runModel cfgInt false 0 1 "x" none 0 [] 0).aborted = true ∧
     (MediaProcessor.runModel cfgInt false 0 1 "x" none 0 [] 0).spawned = false ∧
     (MediaProcessor.runModel cfgInt false 0 1 "x" none 0 [] 0).cmd = none ∧
     (MediaProcessor.runModel cfgInt false 0 1 "x" none 0 [] 0).reportedOutput = none ∧
     (MediaProcessor.runModel cfgInt false 0 1 "x" none 0 [] 0).cleanupFiles = []) :=
  ⟨rfl, Or.inl rfl,
   internal_extraction_aborts cfgInt false 0 1 "x" none 0 [] 0 rfl (Or.inl rfl)⟩

/-! ## Claim C9 — when the cleanup phase runs -/

/-- C9 amended: the cleanup loop runs exactly on the runs that reach the
encoder invocation; every early return (failed extraction, or a
script-generation error) exits without running cleanup, so a run that
already registered the extracted subtitle file and then fails script
generation leaves it behind. -/
theorem cleanup_runs_iff_spawned (cfg : JobConfig) (ex : Bool) (sz ec : Nat)
    (content : String) (emb : Option String) (t : Nat) (emitted : List String)
    (code : Nat) :
    (MediaProcessor.runModel cfg ex sz ec content emb t emitted code).cleanupRan =
      (MediaProcessor.runModel cfg ex sz ec content emb t emitted code).spawned := by
  rcases runModel_shape cfg ex sz ec content emb t emitted code with ⟨c, hc⟩ | ⟨af, c, hc⟩ <;>
    rw [hc] <;> rfl

/-! ## Helper lemmas on characters and substring containment -/

/-- A prefix only uses characters of the list it starts. -/
theorem startsSeg_mem {p l : List Char} (h : startsSeg p l = true) :
    ∀ c ∈ p, c ∈ l := by
  induction p generalizing l with
  | nil => intro c hc; simp at hc
  | cons a as ih =>
    cases l with
    | nil => simp [startsSeg] at h
    | cons b bs =>
      simp only [startsSeg, Bool.and_eq_true, beq_iff_eq] at h
      obtain ⟨rfl, h2⟩ := h
      intro c hc
      rcases List.mem_cons.mp hc with rfl | hc2
      · exact List.mem_cons_self _ _
      · exact List.mem_cons_of_mem _ (ih h2 c hc2)

/-- A contained segment only uses characters of the containing list. -/
theorem hasSeg_mem {p l : List Char} (h : hasSeg p l = true) : ∀ c ∈ p, c ∈ l := by
  induction l with
  | nil =>
    intro c hc
    simp only [hasSeg, List.isEmpty_iff] at h
    subst h
    simp at hc
  | cons b bs ih =>
    simp only [hasSeg, Bool.or_eq_true] at h
    rcases h with h | h
    · exact startsSeg_mem h
    · intro c hc
      exact List.mem_cons_of_mem _ (ih h c hc)

/-- Bounds carried by an uppercase hex digit. -/
theorem hexUpper_bounds {c : Char} (h : isHexUpperChar c = true) :
    (48 ≤ c.toNat ∧ c.toNat ≤ 57) ∨ (65 ≤ c.toNat ∧ c.toNat ≤ 70) := by
  simpa [isHexUpperChar, Bool.or_eq_true, Bool.and_eq_true, decide_eq_true_eq] using h

/-- Uppercasing fixes uppercase hex digits. -/
theorem upChar_hexUpper {c : Char} (h : isHexUpperChar c = true) : upChar c = c := by
  have hb := hexUpper_bounds h
  unfold upChar
  rw [if_neg]
  simp only [Bool.and_eq_true, decide_eq_true_eq, not_and]
  intro h97
  rcases hb with ⟨_, h2⟩ | ⟨_, h2⟩ <;> omega

/-- Uppercase hex digits are not the hash character. -/
theorem hexUpper_not_hash {c : Char} (h : isHexUpperChar c = true) : (c != '#') = true := by
  simp only [bne_iff_ne, ne_eq]
  intro hEq
  subst hEq
  exact absurd h (by decide)

/-- Uppercase hex digits are not whitespace. -/
theorem hexUpper_not_ws {c : Char} (h : isHexUpperChar c = true) : isWSChar c = false := by
  have hb := hexUpper_bounds h
  cases hws : isWSChar c
  · rfl
  · exfalso
    simp only [isWSChar, Bool.or_eq_true, decide_eq_true_eq] at hws
    rcases hb with ⟨h2, _⟩ | ⟨h2, _⟩ <;> omega

/-- A pattern holding a non-hex character is never contained in a list of
uppercase hex digits. -/
theorem hasSeg_false_of_bad (pat : List Char) (bad : Char) (hmem : bad ∈ pat)
    (hbad : isHexUpperChar bad = false) (l : List Char)
    (hl : ∀ c ∈ l, isHexUpperChar c = true) : hasSeg pat l = false := by
  cases hs : hasSeg pat l
  · rfl
  · exfalso
    have h1 := hasSeg_mem hs bad hmem
    have h2 := hl bad h1
    rw [hbad] at h2
    exact Bool.false_ne_true h2

/-- C4 amended: first part — every input of six uppercase hex digits is
reordered from red-green-blue to blue-green-red with each channel pair
preserved verbatim (the preset substring tests can never fire on hex
digits, and lowercase inputs are first uppercased by the normalisation);
second part — every input whose normalised form contains none of the
preset substrings and does not have exactly six characters falls back to
the yellow preset. -/
theorem hex_to_ass_characterization :
    (∀ c1 c2 c3 c4 c5 c6 : Char,
      isHexUpperChar c1 = true → isHexUpperChar c2 = true → isHexUpperChar c3 = true →
      isHexUpperChar c4 = true → isHexUpperChar c5 = true → isHexUpperChar c6 = true →
      AssGenerator.hex_to_ass (String.mk [c1, c2, c3, c4, c5, c6]) =
        String.mk ("&H00".data ++ [c5, c6, c3, c4, c1, c2])) ∧
    (∀ s : String,
      hasSeg "YELLOW".data (AssGenerator.normColor s) = false →
      hasSeg "WHITE".data (AssGenerator.normColor s) = false →
      hasSeg "RED".data (AssGenerator.normColor s) = false →
      (AssGenerator.normColor s).length ≠ 6 →
      AssGenerator.hex_to_ass s = "&H0000FFFF") := by
  constructor
  · intro c1 c2 c3 c4 c5 c6 h1 h2 h3 h4 h5 h6
    have hnorm : AssGenerator.normColor (String.mk [c1, c2, c3, c4, c5, c6]) =
        [c1, c2, c3, c4, c5, c6] := by
      unfold AssGenerator.normColor pyStrip
      simp [upChar_hexUpper h1, upChar_hexUpper h2, upChar_hexUpper h3,
        upChar_hexUpper h4, upChar_hexUpper h5, upChar_hexUpper h6,
        hexUpper_not_hash h1, hexUpper_not_hash h2, hexUpper_not_hash h3,
        hexUpper_not_hash h4, hexUpper_not_hash h5, hexUpper_not_hash h6,
        List.dropWhile, hexUpper_not_ws h1, hexUpper_not_ws h6,
        List.filter]
    have hl : ∀ c ∈ [c1, c2, c3, c4, c5, c6], isHexUpperChar c = true := by
      intro c hc
      simp only [List.mem_cons, List.not_mem_nil, or_false] at hc
      rcases hc with rfl | rfl | rfl | rfl | rfl | rfl <;> assumption
    have hY := hasSeg_false_of_bad "YELLOW".data 'Y' (by decide) (by decide) _ hl
    have hW := hasSeg_false_of_bad "WHITE".data 'W' (by decide) (by decide) _ hl
    have hR := hasSeg_false_of_bad "RED".data 'R' (by decide) (by decide) _ hl
    simp [AssGenerator.hex_to_ass, hnorm, hY, hW, hR]
  · intro s hY hW hR hlen
    simp [AssGenerator.hex_to_ass, hY, hW, hR, hlen]

/-- C4 witness: the uppercase hex input 1A2B3C is byte-swapped to
give the primary color with channel pairs 3C, 2B, 1A, and the input QQQ
(no preset substring, normalised length 3) falls back to yellow. -/
theorem hex_to_ass_characterization_witness :
    (isHexUpperChar '1' = true ∧ isHexUpperChar 'A' = true ∧ isHexUpperChar '2' = true ∧
     isHexUpperChar 'B' = true ∧ isHexUpperChar '3' = true ∧ isHexUpperChar 'C' = true) ∧
    AssGenerator.hex_to_ass (String.mk ['1', 'A', '2', 'B', '3', 'C']) =
      String.mk ("&H00".data ++ ['3', 'C', '2', 'B', '1', 'A']) ∧
    (hasSeg "YELLOW".data (AssGenerator.normColor "QQQ") = false ∧
     hasSeg "WHITE".data (AssGenerator.normColor "QQQ") = false ∧
     hasSeg "RED".data (AssGenerator.normColor "QQQ") = false ∧
     (AssGenerator.normColor "QQQ").length ≠ 6) ∧
    AssGenerator.hex_to_ass "QQQ" = "&H0000FFFF" :=
  ⟨by decide,
   hex_to_ass_characterization.1 '1' 'A' '2' 'B' '3' 'C'
     (by decide) (by decide) (by decide) (by decide) (by decide) (by decide),
   by decide,
   hex_to_ass_characterization.2 "QQQ" (by decide) (by decide) (by decide) (by decide)⟩

/-! ## Timestamp lemmas for claim C5 -/

/-- A digit character has value below ten. -/
theorem digit_lt_ten {c : Char} (h : isDigitChar c = true) : digitVal c < 10 := by
  simp only [isDigitChar, Bool.and_eq_true, decide_eq_true_eq] at h
  unfold digitVal
  omega

/-- Every list accepted by the timestamp shape test is two digits, colon,
two digits, colon, two digits, comma, three digits. -/
theorem checkTime_shape {l : List Char} (h : AssGenerator.checkTime l = true) :
    ∃ a b m n p q x y z : Char,
      isDigitChar a = true ∧ isDigitChar b = true ∧ isDigitChar m = true ∧
      isDigitChar n = true ∧ isDigitChar p = true ∧ isDigitChar q = true ∧
      isDigitChar x = true ∧ isDigitChar y = true ∧ isDigitChar z = true ∧
      l = [a, b, ':', m, n, ':', p, q, ',', x, y, z] := by
  rcases l with _ | ⟨a, _ | ⟨b, _ | ⟨u, _ | ⟨m, _ | ⟨n, _ | ⟨v, _ | ⟨p, _ | ⟨q, _ | ⟨w,
    _ | ⟨x, _ | ⟨y, _ | ⟨z, _ | ⟨e, r⟩⟩⟩⟩⟩⟩⟩⟩⟩⟩⟩⟩⟩ <;>
    simp only [AssGenerator.checkTime, Bool.and_eq_true, beq_iff_eq] at h
  all_goals try exact absurd h (by decide)
  obtain ⟨⟨⟨⟨⟨⟨⟨⟨⟨⟨⟨h1, h2⟩, h3⟩, h4⟩, h5⟩, h6⟩, h7⟩, h8⟩, h9⟩, h10⟩, h11⟩, h12⟩ := h
  subst h3 h6 h9
  exact ⟨a, b, m, n, p, q, x, y, z, h1, h2, h4, h5, h7, h8, h10, h11, h12, rfl⟩

/-- The conversion of a shaped timestamp replaces the comma by a period
and drops exactly the final millisecond digit, leaving all other
characters verbatim. -/
theorem convTs_shape (a b m n p q x y z : Char)
    (ha : isDigitChar a = true) (hb : isDigitChar b = true)
    (hm : isDigitChar m = true) (hn : isDigitChar n = true)
    (hp : isDigitChar p = true) (hq : isDigitChar q = true)
    (hx : isDigitChar x = true) (hy : isDigitChar y = true)
    (hz : isDigitChar z = true) :
    AssGenerator.convTs [a, b, ':', m, n, ':', p, q, ',', x, y, z] =
      [a, b, ':', m, n, ':', p, q, '.', x, y] := by
  have f : ∀ c : Char, isDigitChar c = true → (if c == ',' then '.' else c) = c := by
    intro c hc
    rw [if_neg]
    simp only [beq_iff_eq]
    intro hEq
    subst hEq
    exact absurd hc (by decide)
  have g1 : (if (':' : Char) == ',' then '.' else (':' : Char)) = ':' := by decide
  have g2 : (if (',' : Char) == ',' then '.' else (',' : Char)) = '.' := by decide
  unfold AssGenerator.convTs
  simp only [List.map_cons, List.map_nil, f a ha, f b hb, f m hm, f n hn, f p hp, f q hq,
    f x hx, f y hy, f z hz, g1, g2]
  rfl

/-- The centisecond value of the converted timestamp is the millisecond
value of the source divided by ten. -/
theorem csVal_convTs {l : List Char} (h : AssGenerator.checkTime l = true) :
    csVal (AssGenerator.convTs l) = msVal l / 10 := by
  obtain ⟨a, b, m, n, p, q, x, y, z, ha, hb, hm, hn, hp, hq, hx, hy, hz, rfl⟩ :=
    checkTime_shape h
  rw [convTs_shape a b m n p q x y z ha hb hm hn hp hq hx hy hz]
  have hzlt := digit_lt_ten hz
  simp only [msVal, csVal]
  omega

/-- C5: every cue emitted for a parsed subtitle input has its dialogue
line built from the converted timestamps, each converted timestamp is the
source timestamp with the comma replaced by a period and exactly the
least-significant millisecond digit dropped, and the converted end is no
earlier than the converted start whenever the source end is no earlier
than the source start. -/
theorem parsed_cue_timestamp_conversion (content : String) (cue : AssGenerator.SrtCue)
    (_hmem : cue ∈ AssGenerator.parseSrt content) : convOk cue := by
  refine ⟨rfl, ?_, ?_, ?_⟩
  · obtain ⟨a, b, m, n, p, q, x, y, z, ha, hb, hm, hn, hp, hq, hx, hy, hz, hEq⟩ :=
      checkTime_shape cue.startT.property
    refine ⟨a, b, m, n, p, q, x, y, z, hEq, ?_⟩
    rw [hEq]
    exact convTs_shape a b m n p q x y z ha hb hm hn hp hq hx hy hz
  · obtain ⟨a, b, m, n, p, q, x, y, z, ha, hb, hm, hn, hp, hq, hx, hy, hz, hEq⟩ :=
      checkTime_shape cue.endT.property
    refine ⟨a, b, m, n, p, q, x, y, z, hEq, ?_⟩
    rw [hEq]
    exact convTs_shape a b m n p q x y z ha hb hm hn hp hq hx hy hz
  · intro hle
    rw [csVal_convTs cue.startT.property, csVal_convTs cue.endT.property]
    exact Nat.div_le_div_right hle

/-- C5 witness: the cue parsed from the scenario content satisfies the
conversion properties. -/
theorem parsed_cue_timestamp_conversion_witness :
    demoCue ∈ AssGenerator.parseSrt srtC3 ∧ convOk demoCue :=
  ⟨by decide, parsed_cue_timestamp_conversion srtC3 demoCue (by decide)⟩
